import Mathlib

set_option maxRecDepth 8192

/-!
Shallow embedding of `gst/rtpmanager/gstrtphdrext-rfc6464.c` (GStreamer
RFC 6464 "Client-to-Mixer Audio Level Indication" RTP header extension).

Bytes are modelled as `Nat` values below 256; the output data buffer of
`write` and the input data buffer of `read` are `List Nat`.  The GLib
`g_return_val_if_fail` guards become explicit error branches.  The
`GstRTPHeaderExtensionRfc6464` object state is the single `vad` boolean;
the functions receive it as an explicit parameter exactly where the C
functions receive `ext`/`self`.
-/

namespace Rfc6464

/-- `GstAudioLevelMeta` from gstaudiolevel.h: `level` is a `guint8`
(0..255 at the interface boundary), `voice_activity` a boolean. -/
structure GstAudioLevelMeta where
  level : Nat
  voice_activity : Bool
  deriving DecidableEq, Repr

/-- The object state of `GstRTPHeaderExtensionRfc6464`: one boolean `vad`. -/
structure GstRTPHeaderExtensionRfc6464 where
  vad : Bool
  deriving DecidableEq, Repr

/-- `DEFAULT_VAD` is `TRUE` in the source. -/
def DEFAULT_VAD : Bool := true

/-- `gst_rtp_header_extension_rfc6464_init` sets `self->vad = DEFAULT_VAD`. -/
def rfc6464_init : GstRTPHeaderExtensionRfc6464 := { vad := DEFAULT_VAD }

/-- `GST_RTP_HEADER_EXTENSION_ONE_BYTE` flag bit (1 << 0). -/
def GST_RTP_HEADER_EXTENSION_ONE_BYTE : Nat := 1

/-- `GST_RTP_HEADER_EXTENSION_TWO_BYTE` flag bit (1 << 1). -/
def GST_RTP_HEADER_EXTENSION_TWO_BYTE : Nat := 2

/-- `gst_rtp_header_extension_rfc6464_get_supported_flags`: returns
`GST_RTP_HEADER_EXTENSION_ONE_BYTE | GST_RTP_HEADER_EXTENSION_TWO_BYTE`. -/
def get_supported_flags (_ext : GstRTPHeaderExtensionRfc6464) : Nat :=
  GST_RTP_HEADER_EXTENSION_ONE_BYTE ||| GST_RTP_HEADER_EXTENSION_TWO_BYTE

/-- `gst_rtp_header_extension_rfc6464_get_max_size`: returns 2 unconditionally. -/
def get_max_size (_ext : GstRTPHeaderExtensionRfc6464) : Nat := 2

/-- `set_vad`: updates `self->vad`; `g_object_notify` fires only when the
value actually changes.  Returns the new state and whether notify fired. -/
def set_vad (self : GstRTPHeaderExtensionRfc6464) (vad : Bool) :
    GstRTPHeaderExtensionRfc6464 × Bool :=
  if self.vad == vad then (self, false)
  else ({ self with vad := vad }, true)

/-- `gst_rtp_header_extension_rfc6464_set_attributes`: parses the attribute
string, updating `vad`; returns the new state together with the `gboolean`
result (`false` = invalid attribute, state untouched). -/
def set_attributes (self : GstRTPHeaderExtensionRfc6464) (attributes : String) :
    GstRTPHeaderExtensionRfc6464 × Bool :=
  if attributes == "vad=on" || attributes == "" then
    ((set_vad self true).1, true)
  else if attributes == "vad=off" then
    ((set_vad self false).1, true)
  else
    (self, false)

/-- `gst_rtp_header_extension_rfc6464_set_caps_from_attributes`: the
attribute string handed to `gst_rtp_header_extension_set_caps_from_attributes_helper`,
i.e. the textual form of the current state. -/
def set_caps_from_attributes (self : GstRTPHeaderExtensionRfc6464) : String :=
  if self.vad then "vad=on" else "vad=off"

/-- Result of `write`: the `gssize` return value and the data buffer after
the call. -/
structure WriteResult where
  ret : Int
  data : List Nat
  deriving DecidableEq, Repr

/-- `gst_rtp_header_extension_rfc6464_write`.  The two
`g_return_val_if_fail` guards return -1; absent meta returns 0; otherwise
byte 0 is `(meta->level & 0x7F) | (meta->voice_activity << 7)` and, in the
two-byte branch, byte 1 is zeroed.  The local `level` is computed with the
`> 127` crop exactly as in the source, where it is never read afterwards. -/
def write (ext : GstRTPHeaderExtensionRfc6464)
    (input_meta : Option GstAudioLevelMeta) (write_flags : Nat)
    (data : List Nat) : WriteResult :=
  if ¬ (data.length ≥ get_max_size ext) then { ret := -1, data := data }
  else if write_flags &&& get_supported_flags ext = 0 then { ret := -1, data := data }
  else
    match input_meta with
    | none => { ret := 0, data := data }
    | some meta =>
      let level := meta.level
      let _level := if level > 127 then 127 else level
      let byte0 :=
        (meta.level &&& 0x7F) ||| ((if meta.voice_activity then 1 else 0) <<< 7)
      let data := data.set 0 byte0
      if write_flags &&& GST_RTP_HEADER_EXTENSION_ONE_BYTE ≠ 0 then
        { ret := 1, data := data }
      else
        { ret := 2, data := data.set 1 0 }

/-- Outcome of `read`.  `invalidArgument` is the `g_return_val_if_fail`
guard branch (nothing attached); `outOfBounds` models the `data[0]` access
past the buffer, which the C code would perform unconditionally. -/
inductive ReadResult where
  | invalidArgument : ReadResult
  | outOfBounds : ReadResult
  | ok : GstAudioLevelMeta → ReadResult
  deriving DecidableEq, Repr

/-- `gst_rtp_header_extension_rfc6464_read`: after the supported-flags
guard, `level = data[0] & 0x7F`, `voice_activity = (data[0] & 0x80) >> 7`
(a `gboolean`, true iff nonzero), and a fresh `GstAudioLevelMeta` is
attached to the buffer. -/
def read (ext : GstRTPHeaderExtensionRfc6464) (read_flags : Nat)
    (data : List Nat) : ReadResult :=
  if read_flags &&& get_supported_flags ext = 0 then .invalidArgument
  else
    match data[0]? with
    | none => .outOfBounds
    | some b0 =>
      let level := b0 &&& 0x7F
      let voice_activity := ((b0 &&& 0x80) >>> 7) != 0
      .ok { level := level, voice_activity := voice_activity }

/-- C1: for every level in [0,127] and every voice_activity, writing an
`AudioLevelMeta` in either the one-byte or the two-byte form and reading
back the produced bytes yields a meta with the same level and
voice_activity. -/
theorem write_read_roundtrip (l : Nat) (hl : l ≤ 127) (va : Bool) (flags : Nat)
    (hf : flags = GST_RTP_HEADER_EXTENSION_ONE_BYTE ∨
      flags = GST_RTP_HEADER_EXTENSION_TWO_BYTE) :
    read rfc6464_init flags
        ((write rfc6464_init (some { level := l, voice_activity := va }) flags
            [0, 0]).data.take
          (write rfc6464_init (some { level := l, voice_activity := va }) flags
            [0, 0]).ret.toNat) =
      .ok { level := l, voice_activity := va } := by
  have key : ∀ l' : Fin 128, ∀ va' : Bool, ∀ one : Bool,
      read rfc6464_init (if one then 1 else 2)
          ((write rfc6464_init (some { level := l'.val, voice_activity := va' })
              (if one then 1 else 2) [0, 0]).data.take
            (write rfc6464_init (some { level := l'.val, voice_activity := va' })
              (if one then 1 else 2) [0, 0]).ret.toNat) =
        .ok { level := l'.val, voice_activity := va' } := by decide
  rcases hf with hf | hf <;> subst hf
  · exact key ⟨l, Nat.lt_succ_of_le hl⟩ va true
  · exact key ⟨l, Nat.lt_succ_of_le hl⟩ va false

/-- Witness for C1 at level 5, voice_activity true, one-byte form. -/
theorem write_read_roundtrip_witness :
    read rfc6464_init 1
        ((write rfc6464_init (some { level := 5, voice_activity := true }) 1
            [0, 0]).data.take
          (write rfc6464_init (some { level := 5, voice_activity := true }) 1
            [0, 0]).ret.toNat) =
      .ok { level := 5, voice_activity := true } :=
  write_read_roundtrip 5 (by decide) true 1 (Or.inl rfl)

/-- C2: the claim that over-range levels are written clamped to 127 fails on
the code: the cropped local `level` is never used, `data[0]` is computed
from the raw `meta->level`.  At level 200 the write produces byte 72,
while a meta with level 127 produces byte 127. -/
theorem clamp_is_dead_store :
    (write rfc6464_init (some { level := 200, voice_activity := false })
        GST_RTP_HEADER_EXTENSION_ONE_BYTE [0, 0]).data = [72, 0] ∧
    (write rfc6464_init (some { level := 127, voice_activity := false })
        GST_RTP_HEADER_EXTENSION_ONE_BYTE [0, 0]).data = [127, 0] ∧
    (72 : Nat) ≠ 127 := by decide

/-- C3: for every meta level in 0..255, the low 7 bits of the written
byte 0 never exceed 127, and write succeeds (returns 1 or 2, never the
error -1) whatever the level's magnitude. -/
theorem write_level_bits_bounded (l : Nat) (hl : l ≤ 255) (va : Bool)
    (flags : Nat)
    (hf : flags = GST_RTP_HEADER_EXTENSION_ONE_BYTE ∨
      flags = GST_RTP_HEADER_EXTENSION_TWO_BYTE) :
    ((write rfc6464_init (some { level := l, voice_activity := va }) flags
          [0, 0]).data.headD 0) &&& 0x7F ≤ 127 ∧
    ((write rfc6464_init (some { level := l, voice_activity := va }) flags
        [0, 0]).ret = 1 ∨
      (write rfc6464_init (some { level := l, voice_activity := va }) flags
        [0, 0]).ret = 2) := by
  have key : ∀ l' : Fin 256, ∀ va' : Bool, ∀ one : Bool,
      ((write rfc6464_init (some { level := l'.val, voice_activity := va' })
            (if one then 1 else 2) [0, 0]).data.headD 0) &&& 0x7F ≤ 127 ∧
      ((write rfc6464_init (some { level := l'.val, voice_activity := va' })
          (if one then 1 else 2) [0, 0]).ret = 1 ∨
        (write rfc6464_init (some { level := l'.val, voice_activity := va' })
          (if one then 1 else 2) [0, 0]).ret = 2) := by decide
  rcases hf with hf | hf <;> subst hf
  · exact key ⟨l, Nat.lt_succ_of_le hl⟩ va true
  · exact key ⟨l, Nat.lt_succ_of_le hl⟩ va false

/-- Witness for C3 at level 255, voice_activity true, two-byte form. -/
theorem write_level_bits_bounded_witness :
    ((write rfc6464_init (some { level := 255, voice_activity := true }) 2
          [0, 0]).data.headD 0) &&& 0x7F ≤ 127 ∧
    ((write rfc6464_init (some { level := 255, voice_activity := true }) 2
        [0, 0]).ret = 1 ∨
      (write rfc6464_init (some { level := 255, voice_activity := true }) 2
        [0, 0]).ret = 2) :=
  write_level_bits_bounded 255 (by decide) true 2 (Or.inr rfl)

/-- Reading a buffer whose head is `b` under a supported form yields the
meta computed from `b` alone, in the source's `(b & 0x80) >> 7` shape. -/
theorem read_cons (ext : GstRTPHeaderExtensionRfc6464) (flags : Nat)
    (hf : flags &&& get_supported_flags ext ≠ 0) (b : Nat) (rest : List Nat) :
    read ext flags (b :: rest) =
      .ok { level := b &&& 0x7F,
            voice_activity := ((b &&& 0x80) >>> 7) != 0 } := by
  simp [read, hf]

/-- C4: every byte value b as byte 0 of a non-empty input decodes, under a
supported read form, to an attached meta with level = b & 0x7F and
voice_activity = (b & 0x80) ≠ 0; no byte value is rejected. -/
theorem read_any_byte (b : Nat) (hb : b ≤ 255) (rest : List Nat) (flags : Nat)
    (hf : flags = GST_RTP_HEADER_EXTENSION_ONE_BYTE ∨
      flags = GST_RTP_HEADER_EXTENSION_TWO_BYTE) :
    read rfc6464_init flags (b :: rest) =
      .ok { level := b &&& 0x7F, voice_activity := decide (b &&& 0x80 ≠ 0) } := by
  have hbits : ∀ b' : Fin 256,
      ((b'.val &&& 0x80) >>> 7 != 0) = decide (b'.val &&& 0x80 ≠ 0) := by decide
  have hb0 : ((b &&& 0x80) >>> 7 != 0) = decide (b &&& 0x80 ≠ 0) :=
    hbits ⟨b, Nat.lt_succ_of_le hb⟩
  rcases hf with hf | hf <;> subst hf <;>
    rw [read_cons _ _ (by decide) b rest, hb0]

/-- Witness for C4 at byte 0x85 with a padding byte behind it. -/
theorem read_any_byte_witness :
    read rfc6464_init 1 (0x85 :: [0]) =
      .ok { level := 0x85 &&& 0x7F,
            voice_activity := decide ((0x85 : Nat) &&& 0x80 ≠ 0) } :=
  read_any_byte 0x85 (by decide) [0] 1 (Or.inl rfl)

/-- C5: write on a frame with no audio-level meta, a supported form and a
buffer of at least max_size bytes returns 0 and leaves the buffer
untouched. -/
theorem write_no_meta (flags : Nat)
    (hf : flags = GST_RTP_HEADER_EXTENSION_ONE_BYTE ∨
      flags = GST_RTP_HEADER_EXTENSION_TWO_BYTE)
    (data : List Nat) (hd : 2 ≤ data.length) :
    write rfc6464_init none flags data = { ret := 0, data := data } := by
  rcases hf with hf | hf <;> subst hf <;>
    simp [write, get_max_size, get_supported_flags,
      GST_RTP_HEADER_EXTENSION_ONE_BYTE, GST_RTP_HEADER_EXTENSION_TWO_BYTE, hd]

/-- Witness for C5 on the buffer [9, 7] with the two-byte form. -/
theorem write_no_meta_witness :
    write rfc6464_init none 2 [9, 7] = { ret := 0, data := [9, 7] } :=
  write_no_meta 2 (Or.inr rfl) [9, 7] (by decide)

/-- C6: from any prior state, set_attributes maps "vad=on" and "" to
vad = true, "vad=off" to vad = false, and fails on any other string with
the state returned exactly as it was. -/
theorem set_attributes_spec (s : GstRTPHeaderExtensionRfc6464) :
    set_attributes s "vad=on" = ({ vad := true }, true) ∧
    set_attributes s "" = ({ vad := true }, true) ∧
    set_attributes s "vad=off" = ({ vad := false }, true) ∧
    ∀ a : String, a ≠ "vad=on" → a ≠ "" → a ≠ "vad=off" →
      set_attributes s a = (s, false) := by
  obtain ⟨v⟩ := s
  refine ⟨?_, ?_, ?_, ?_⟩
  · cases v <;> decide
  · cases v <;> decide
  · cases v <;> decide
  · intro a h1 h2 h3
    simp [set_attributes, h1, h2, h3]

/-- Witness for C6: the unrecognized string "garbage" fails and keeps the
prior vad = false state. -/
theorem set_attributes_spec_witness :
    set_attributes { vad := false } "garbage" = ({ vad := false }, false) :=
  (set_attributes_spec { vad := false }).2.2.2 "garbage" (by decide) (by decide)
    (by decide)

/-- C7: read with read_flags sharing no bit with the supported forms fails
in the guard, attaching no metadata. -/
theorem read_unsupported_flags (flags : Nat)
    (hf : flags &&& get_supported_flags rfc6464_init = 0) (data : List Nat) :
    read rfc6464_init flags data = .invalidArgument := by
  simp [read, hf]

/-- Witness for C7 with flag bit 4 (neither one-byte nor two-byte). -/
theorem read_unsupported_flags_witness :
    read rfc6464_init 4 [0x85] = .invalidArgument :=
  read_unsupported_flags 4 (by decide) [0x85]

/-- C8: set_caps_from_attributes produces exactly "vad=on" when vad is true
and "vad=off" when vad is false; after a successful set_attributes it
returns the canonical form of the configured string, "" mapping to
"vad=on". -/
theorem set_caps_from_attributes_spec (s : GstRTPHeaderExtensionRfc6464) :
    (s.vad = true → set_caps_from_attributes s = "vad=on") ∧
    (s.vad = false → set_caps_from_attributes s = "vad=off") ∧
    set_caps_from_attributes (set_attributes s "vad=on").1 = "vad=on" ∧
    set_caps_from_attributes (set_attributes s "vad=off").1 = "vad=off" ∧
    set_caps_from_attributes (set_attributes s "").1 = "vad=on" := by
  obtain ⟨v⟩ := s
  cases v <;> exact ⟨fun h => by simp_all [set_caps_from_attributes],
    fun h => by simp_all [set_caps_from_attributes], by decide, by decide,
    by decide⟩

/-- Witness for C8 at the state with vad enabled. -/
theorem set_caps_from_attributes_spec_witness :
    set_caps_from_attributes { vad := true } = "vad=on" :=
  (set_caps_from_attributes_spec { vad := true }).1 rfl

/-- C9: write and read are independent of the vad flag: two codec states
differing only in vad produce identical return values, identical output
bytes and identical decoded metas on every input. -/
theorem wire_noninterference_of_vad (s1 s2 : GstRTPHeaderExtensionRfc6464)
    (input_meta : Option GstAudioLevelMeta) (flags : Nat) (data : List Nat)
    (rdata : List Nat) :
    write s1 input_meta flags data = write s2 input_meta flags data ∧
    read s1 flags rdata = read s2 flags rdata :=
  ⟨rfl, rfl⟩

/-- C10: under a supported form, read on any buffer of length ≥ 1 depends
only on byte 0 (two buffers agreeing at index 0 give identical results)
and the out-of-bounds branch is unreachable: the result is an attached
meta, not outOfBounds. -/
theorem read_touches_only_byte0 (flags : Nat)
    (hf : flags = GST_RTP_HEADER_EXTENSION_ONE_BYTE ∨
      flags = GST_RTP_HEADER_EXTENSION_TWO_BYTE)
    (d1 d2 : List Nat) (h1 : 1 ≤ d1.length) (h2 : 1 ≤ d2.length)
    (h0 : d1[0]? = d2[0]?) :
    read rfc6464_init flags d1 = read rfc6464_init flags d2 ∧
    ∃ m, read rfc6464_init flags d1 = .ok m := by
  match d1, d2 with
  | [], _ => simp at h1
  | _, [] => simp at h2
  | a :: t1, b :: t2 =>
    have hab : a = b := by simpa using h0
    subst hab
    have hsf : flags &&& get_supported_flags rfc6464_init ≠ 0 := by
      rcases hf with hf | hf <;> subst hf <;> decide
    refine ⟨?_, ⟨_, read_cons rfc6464_init flags hsf a t1⟩⟩
    rw [read_cons rfc6464_init flags hsf a t1,
      read_cons rfc6464_init flags hsf a t2]

/-- Witness for C10 on the buffers [0x2A] and [0x2A, 0xFF]. -/
theorem read_touches_only_byte0_witness :
    (read rfc6464_init 2 [0x2A] = read rfc6464_init 2 [0x2A, 0xFF] ∧
      ∃ m, read rfc6464_init 2 [0x2A] = .ok m) :=
  read_touches_only_byte0 2 (Or.inr rfl) [0x2A] [0x2A, 0xFF] (by decide)
    (by decide) (by decide)

end Rfc6464
